import Mathlib

/-
  Verification of the Rusty-Golem supervisor (src/main.rs).

  The program is a single-threaded polling loop that supervises one child
  process according to a daily time window.  We shallowly embed the loop
  body as a pure step function `tick` over an explicit state
  (`LoopState`), with the per-tick oracle inputs (clock reading, the
  result of `try_wait`, the result of `spawn`) gathered in `TickEnv`, and
  the externally visible actions of a tick (Discord notifications, stdin
  commands, spawn attempts, blocking waits, sleeps) recorded as an
  ordered list of `Event`s.

  Times of day (chrono `NaiveTime`) are modelled as seconds since
  midnight (`Nat`); absolute instants (chrono `DateTime<Local>`) as
  seconds (`Int`).  chrono's `Duration::num_minutes` divides the signed
  number of seconds by 60 truncating toward zero, which is `Int.div`.
-/

namespace RustyGolem

/-- chrono `Duration::num_minutes` on a duration of `secs` seconds:
signed division by 60, truncating toward zero (Rust `i64` division). -/
def num_minutes (secs : Int) : Int := Int.tdiv secs 60

/-- The window test from the main loop (`is_running_time`):
same-day branch when `start_time <= end_time`, otherwise the overnight
branch.  A pure function of the three time-of-day values. -/
def in_window (current_time start_time end_time : Nat) : Bool :=
  if start_time ≤ end_time then
    decide (start_time ≤ current_time) && decide (current_time < end_time)
  else
    decide (start_time ≤ current_time) || decide (current_time < end_time)

/-- The `minutes_left` computation from the alive-and-in-window branch of
the main loop: `(end_time - current_time).num_minutes()` in the same-day
branch and in the overnight branch while `current_time < end_time`;
otherwise the same quantity plus `24 * 60`. -/
def minutes_left (start_time end_time current_time : Nat) : Int :=
  if start_time ≤ end_time then
    num_minutes ((end_time : Int) - (current_time : Int))
  else
    if current_time < end_time then
      num_minutes ((end_time : Int) - (current_time : Int))
    else
      num_minutes ((end_time : Int) - (current_time : Int)) + 24 * 60

/-- `crash_timestamps.retain(|&t| (now - t).num_minutes() <= 5)`:
keeps exactly the entries whose age in truncated whole minutes is at
most 5, preserving order. -/
def prune (now : Int) (ts : List Int) : List Int :=
  ts.filter (fun t => decide (num_minutes (now - t) ≤ 5))

/-- Result of `child.try_wait()` on the tick: `Ok(Some(_))` is `exited`,
`Ok(None)` is `running`, `Err(_)` is `error`. -/
inductive TryWait
  | exited
  | running
  | error
  deriving DecidableEq

/-- Result of `start_server` on the tick: `Ok(child)` or `Err(e)`. -/
inductive SpawnResult
  | ok
  | err
  deriving DecidableEq

/-- The two configured times of day (parsed from `start_time` and
`end_time` in config.toml), in seconds since midnight. -/
structure Config where
  start_time : Nat
  end_time : Nat
  deriving DecidableEq

/-- The mutable state of the main loop: the optional child handle
`server_process`, the three warning flags, and the crash ledger. -/
structure LoopState where
  server_process : Option Unit
  warned_10_min : Bool
  warned_5_min : Bool
  warned_1_min : Bool
  crash_timestamps : List Int
  deriving DecidableEq

/-- Per-tick oracle inputs: the absolute clock reading `now`, its
time-of-day projection `current_time`, and the outcomes the operating
system would give to `try_wait` and `spawn` on this tick. -/
structure TickEnv where
  now : Int
  current_time : Nat
  try_wait : TryWait
  spawn : SpawnResult
  deriving DecidableEq

/-- Externally visible actions of one tick, in program order. -/
inductive Event
  | notify (msg : String)
  | command (cmd : String)
  | spawnAttempt
  | waitForExit
  | sleep (secs : Nat)
  deriving DecidableEq

def startingMsg : String := "Starting Minecraft Server..."

def cooldownMsg : String := "Watchdog: Server crashed 3 times. Giving up."

def stoppingMsg : String := "Stopping Minecraft Server (Schedule)..."

def stopCmd : String := "stop"

def warn10Msg : String := "say Server will stop in 10 minutes!"

def warn5Msg : String := "say Server will stop in 5 minutes!"

def warn1Msg : String := "say Server will stop in 1 minute!"

/-- The liveness check at the top of the loop body: `is_alive` stays
`false` when there is no handle; with a handle it is `true` exactly when
`try_wait` reports `Ok(None)` (still running). -/
def is_alive (env : TickEnv) (s : LoopState) : Bool :=
  match s.server_process with
  | none => false
  | some _ =>
    match env.try_wait with
    | TryWait.exited => false
    | TryWait.running => true
    | TryWait.error => false

/-- The countdown-warning chain of the alive-and-in-window branch
(the `minutes_left == 10 / 5 / 1` if/else-if chain): checks the
thresholds in priority order 10, 5, 1; a threshold fires only on an
exact match with its flag unset, sends the fixed announcement to the
child's stdin (when the handle is present, as the source's
`if let Some(child)` requires) and sets the flag. -/
def warn_step (m : Int) (s : LoopState) : LoopState × List Event :=
  if m = 10 ∧ s.warned_10_min = false then
    match s.server_process with
    | some _ => ({ s with warned_10_min := true },
                 [Event.command warn10Msg, Event.sleep 10])
    | none => (s, [Event.sleep 10])
  else if m = 5 ∧ s.warned_5_min = false then
    match s.server_process with
    | some _ => ({ s with warned_5_min := true },
                 [Event.command warn5Msg, Event.sleep 10])
    | none => (s, [Event.sleep 10])
  else if m = 1 ∧ s.warned_1_min = false then
    match s.server_process with
    | some _ => ({ s with warned_1_min := true },
                 [Event.command warn1Msg, Event.sleep 10])
    | none => (s, [Event.sleep 10])
  else
    (s, [Event.sleep 10])

/-- One iteration of the main loop body, from the clock read to the
trailing sleep, returning the successor state and the ordered list of
externally visible events of the tick. -/
def tick (cfg : Config) (env : TickEnv) (s : LoopState) : LoopState × List Event :=
  let is_running_time := in_window env.current_time cfg.start_time cfg.end_time
  if is_alive env s = false then
    if is_running_time then
      let ts := prune env.now s.crash_timestamps
      if 3 ≤ ts.length then
        ({ s with crash_timestamps := ts },
         [Event.notify cooldownMsg, Event.sleep 60])
      else
        match env.spawn with
        | SpawnResult.ok =>
          ({ server_process := some (), warned_10_min := false, warned_5_min := false,
             warned_1_min := false, crash_timestamps := ts ++ [env.now] },
           [Event.notify startingMsg, Event.spawnAttempt, Event.sleep 10])
        | SpawnResult.err =>
          ({ s with crash_timestamps := ts ++ [env.now] },
           [Event.notify startingMsg, Event.spawnAttempt, Event.sleep 10])
    else
      ({ s with server_process := none }, [Event.sleep 10])
  else
    if is_running_time = false then
      ({ s with server_process := none },
       [Event.notify stoppingMsg, Event.command stopCmd, Event.waitForExit, Event.sleep 10])
    else
      warn_step (minutes_left cfg.start_time cfg.end_time env.current_time) s

/-- The branch predicate for a successful spawn on this tick: not alive,
window open, pruned ledger count below 3, and `start_server` succeeds. -/
def spawn_succeeds (cfg : Config) (env : TickEnv) (s : LoopState) : Bool :=
  (is_alive env s = false : Bool)
    && in_window env.current_time cfg.start_time cfg.end_time
    && decide ((prune env.now s.crash_timestamps).length < 3)
    && (env.spawn == SpawnResult.ok)

/-- An event is a command written to the child's stdin. -/
def isCommand : Event → Bool
  | Event.command _ => true
  | _ => false

/-- A truncated-minute age of at most 5 bounds the age itself below 6
minutes (360 seconds). -/
theorem num_minutes_le_five (q : Int) (h : num_minutes q ≤ 5) : q < 360 := by
  unfold num_minutes at h
  cases q with
  | ofNat n =>
    have hd : Int.tdiv (Int.ofNat n) 60 = Int.ofNat (n / 60) := rfl
    rw [hd, Int.ofNat_eq_natCast] at h
    have hn : n / 60 ≤ 5 := by exact_mod_cast h
    have hb : n < 360 := by omega
    rw [Int.ofNat_eq_natCast]
    exact_mod_cast hb
  | negSucc n =>
    have hlt : Int.negSucc n < 0 := Int.negSucc_lt_zero n
    omega

/-- A live tick means the handle is present and `try_wait` reported the
child still running. -/
theorem is_alive_iff (env : TickEnv) (s : LoopState) :
    is_alive env s = true ↔
      s.server_process = some () ∧ env.try_wait = TryWait.running := by
  unfold is_alive
  rcases hsp : s.server_process with _ | u
  · simp
  · cases u
    cases htw : env.try_wait <;> simp

/-- Branch lemma: not alive and window closed. -/
theorem tick_notalive_closed (cfg : Config) (env : TickEnv) (s : LoopState)
    (halive : is_alive env s = false)
    (hwin : in_window env.current_time cfg.start_time cfg.end_time = false) :
    tick cfg env s = ({ s with server_process := none }, [Event.sleep 10]) := by
  unfold tick
  simp [halive, hwin]

/-- Branch lemma: not alive, window open, pruned count at least 3. -/
theorem tick_cooldown (cfg : Config) (env : TickEnv) (s : LoopState)
    (halive : is_alive env s = false)
    (hwin : in_window env.current_time cfg.start_time cfg.end_time = true)
    (hcnt : 3 ≤ (prune env.now s.crash_timestamps).length) :
    tick cfg env s =
      ({ s with crash_timestamps := prune env.now s.crash_timestamps },
       [Event.notify cooldownMsg, Event.sleep 60]) := by
  unfold tick
  simp [halive, hwin, hcnt]

/-- Branch lemma: not alive, window open, pruned count below 3, spawn
succeeds. -/
theorem tick_spawn_ok (cfg : Config) (env : TickEnv) (s : LoopState)
    (halive : is_alive env s = false)
    (hwin : in_window env.current_time cfg.start_time cfg.end_time = true)
    (hcnt : (prune env.now s.crash_timestamps).length < 3)
    (hsp : env.spawn = SpawnResult.ok) :
    tick cfg env s =
      ({ server_process := some (), warned_10_min := false, warned_5_min := false,
         warned_1_min := false,
         crash_timestamps := prune env.now s.crash_timestamps ++ [env.now] },
       [Event.notify startingMsg, Event.spawnAttempt, Event.sleep 10]) := by
  unfold tick
  have hc : ¬ 3 ≤ (prune env.now s.crash_timestamps).length := by omega
  simp [halive, hwin, hc, hsp]

/-- Branch lemma: not alive, window open, pruned count below 3, spawn
fails. -/
theorem tick_spawn_err (cfg : Config) (env : TickEnv) (s : LoopState)
    (halive : is_alive env s = false)
    (hwin : in_window env.current_time cfg.start_time cfg.end_time = true)
    (hcnt : (prune env.now s.crash_timestamps).length < 3)
    (hsp : env.spawn = SpawnResult.err) :
    tick cfg env s =
      ({ s with crash_timestamps := prune env.now s.crash_timestamps ++ [env.now] },
       [Event.notify startingMsg, Event.spawnAttempt, Event.sleep 10]) := by
  unfold tick
  have hc : ¬ 3 ≤ (prune env.now s.crash_timestamps).length := by omega
  simp [halive, hwin, hc, hsp]

/-- Branch lemma: alive and window closed (the scheduled-stop branch). -/
theorem tick_alive_closed (cfg : Config) (env : TickEnv) (s : LoopState)
    (halive : is_alive env s = true)
    (hwin : in_window env.current_time cfg.start_time cfg.end_time = false) :
    tick cfg env s =
      ({ s with server_process := none },
       [Event.notify stoppingMsg, Event.command stopCmd, Event.waitForExit,
        Event.sleep 10]) := by
  unfold tick
  simp [halive, hwin]

/-- Branch lemma: alive and window open (the countdown branch). -/
theorem tick_alive_open (cfg : Config) (env : TickEnv) (s : LoopState)
    (halive : is_alive env s = true)
    (hwin : in_window env.current_time cfg.start_time cfg.end_time = true) :
    tick cfg env s =
      warn_step (minutes_left cfg.start_time cfg.end_time env.current_time) s := by
  unfold tick
  simp [halive, hwin]

/-- `warn_step` never attempts a spawn and never notifies. -/
theorem warn_step_no_spawn (m : Int) (s : LoopState) :
    Event.spawnAttempt ∉ (warn_step m s).2 := by
  unfold warn_step
  rcases hsp : s.server_process with _ | u <;>
    by_cases h10 : m = 10 ∧ s.warned_10_min = false <;>
    by_cases h5 : m = 5 ∧ s.warned_5_min = false <;>
    by_cases h1 : m = 1 ∧ s.warned_1_min = false <;>
    simp [hsp, h10, h5, h1]

/-- A spawn attempt happens on a tick exactly when the tick is not
alive, the window is open, and the pruned ledger count is below 3. -/
theorem spawn_attempt_iff (cfg : Config) (env : TickEnv) (s : LoopState) :
    Event.spawnAttempt ∈ (tick cfg env s).2 ↔
      (is_alive env s = false ∧
       in_window env.current_time cfg.start_time cfg.end_time = true ∧
       (prune env.now s.crash_timestamps).length < 3) := by
  by_cases halive : is_alive env s = false
  · by_cases hwin : in_window env.current_time cfg.start_time cfg.end_time = true
    · by_cases hcnt : (prune env.now s.crash_timestamps).length < 3
      · cases hsp : env.spawn
        · rw [tick_spawn_ok cfg env s halive hwin hcnt hsp]
          simp [halive, hwin, hcnt]
        · rw [tick_spawn_err cfg env s halive hwin hcnt hsp]
          simp [halive, hwin, hcnt]
      · rw [tick_cooldown cfg env s halive hwin (by omega)]
        simp [hcnt]
    · rw [tick_notalive_closed cfg env s halive (by simpa using hwin)]
      simp [hwin]
  · have ha : is_alive env s = true := by
      cases h : is_alive env s
      · exact absurd h halive
      · rfl
    by_cases hwin : in_window env.current_time cfg.start_time cfg.end_time = true
    · rw [tick_alive_open cfg env s ha hwin]
      simp [halive, warn_step_no_spawn]
    · rw [tick_alive_closed cfg env s ha (by simpa using hwin)]
      simp [halive]

/-- `warn_step` only ever raises the warning flags, never clears one. -/
theorem warn_step_flags_mono (m : Int) (s : LoopState) :
    (s.warned_10_min = true → (warn_step m s).1.warned_10_min = true) ∧
    (s.warned_5_min = true → (warn_step m s).1.warned_5_min = true) ∧
    (s.warned_1_min = true → (warn_step m s).1.warned_1_min = true) := by
  unfold warn_step
  rcases hsp : s.server_process with _ | u <;>
    by_cases h10 : m = 10 ∧ s.warned_10_min = false <;>
    by_cases h5 : m = 5 ∧ s.warned_5_min = false <;>
    by_cases h1 : m = 1 ∧ s.warned_1_min = false <;>
    simp [hsp, h10, h5, h1]

/-- C1: for `start != end`, `in_window(now, start, end)` is true iff
`start < end` and `start <= now < end` (same-day window), or
`start > end` and (`now >= start` or `now < end`) (overnight window).
It is a pure, deterministic function of the three time values, which
the embedding reflects by making it a function. -/
theorem in_window_correct (now start_time end_time : Nat)
    (_h : start_time ≠ end_time) :
    in_window now start_time end_time = true ↔
      (start_time < end_time ∧ start_time ≤ now ∧ now < end_time) ∨
      (end_time < start_time ∧ (start_time ≤ now ∨ now < end_time)) := by
  unfold in_window
  by_cases hle : start_time ≤ end_time <;> simp [hle] <;> omega

/-- Witness for C1 at the concrete input now = 10:00, start = 08:00,
end = 22:00 (in seconds of day). -/
theorem in_window_correct_witness :
    in_window 36000 28800 79200 = true ↔
      (28800 < 79200 ∧ 28800 ≤ 36000 ∧ 36000 < 79200) ∨
      (79200 < 28800 ∧ (28800 ≤ 36000 ∨ 36000 < 79200)) :=
  in_window_correct 36000 28800 79200 (by decide)

/-- C5: `minutes_left` is `(end - now)` in truncated whole minutes in
the same-day branch and in the overnight branch while `now < end`, and
that quantity plus 24 hours (1440 minutes) otherwise; for the window
22:00-08:00 at current time 23:30 it equals 510. -/
theorem minutes_left_correct :
    (∀ start_time end_time current_time : Nat,
      (start_time ≤ end_time →
        minutes_left start_time end_time current_time =
          num_minutes ((end_time : Int) - (current_time : Int))) ∧
      (end_time < start_time → current_time < end_time →
        minutes_left start_time end_time current_time =
          num_minutes ((end_time : Int) - (current_time : Int))) ∧
      (end_time < start_time → end_time ≤ current_time →
        minutes_left start_time end_time current_time =
          num_minutes ((end_time : Int) - (current_time : Int)) + 24 * 60)) ∧
    minutes_left 79200 28800 84600 = 510 := by
  constructor
  · intro start_time end_time current_time
    refine ⟨fun hse => ?_, fun hes hce => ?_, fun hes hec => ?_⟩
    · unfold minutes_left
      rw [if_pos hse]
    · unfold minutes_left
      rw [if_neg (by omega), if_pos hce]
    · unfold minutes_left
      rw [if_neg (by omega), if_neg (by omega)]
  · decide

/-- Witness for C5's branch clauses at the concrete overnight input
start = 22:00, end = 08:00, now = 23:30. -/
theorem minutes_left_correct_witness :
    minutes_left 79200 28800 84600 =
      num_minutes ((28800 : Int) - (84600 : Int)) + 24 * 60 :=
  (minutes_left_correct.1 79200 28800 84600).2.2 (by decide) (by decide)

/-- C3 counterexample: the prune predicate keeps every timestamp whose
age in truncated whole minutes is at most 5, so a timestamp of age
330 seconds (5 minutes 30 seconds, strictly more than 5 minutes) is
retained after pruning at `now = 330`. -/
theorem prune_horizon_counterexample :
    (0 : Int) ∈ prune 330 [0] ∧ ¬ ((330 : Int) - 0 ≤ 5 * 60) := by
  decide

/-- C3 (amended): after pruning at `now`, every retained timestamp has
age at most 5 truncated whole minutes — hence age strictly below 6
minutes, though it may exceed 5 minutes by up to 59 seconds — and on
every tick the count consulted for the spawn decision is the length of
the pruned ledger (a spawn attempt happens iff that pruned count is
below 3). -/
theorem prune_horizon_amended :
    (∀ (now t : Int) (ts : List Int), t ∈ prune now ts →
      num_minutes (now - t) ≤ 5 ∧ now - t < 6 * 60) ∧
    (∀ (cfg : Config) (env : TickEnv) (s : LoopState),
      is_alive env s = false →
      in_window env.current_time cfg.start_time cfg.end_time = true →
      (Event.spawnAttempt ∈ (tick cfg env s).2 ↔
        (prune env.now s.crash_timestamps).length < 3)) := by
  constructor
  · intro now t ts ht
    have hmem := List.of_mem_filter ht
    have hle : num_minutes (now - t) ≤ 5 := of_decide_eq_true hmem
    exact ⟨hle, num_minutes_le_five _ hle⟩
  · intro cfg env s halive hwin
    rw [spawn_attempt_iff]
    simp [halive, hwin]

/-- Witness for C3 (amended) at a concrete retained timestamp and a
concrete spawning tick. -/
theorem prune_horizon_amended_witness :
    ((330 : Int) - 0 < 6 * 60) ∧
    (Event.spawnAttempt ∈
      (tick ⟨28800, 79200⟩ ⟨400, 36000, TryWait.exited, SpawnResult.ok⟩
        ⟨none, false, false, false, []⟩).2 ↔
      (prune 400 ([] : List Int)).length < 3) :=
  ⟨(prune_horizon_amended.1 330 0 [0] (by decide)).2,
   prune_horizon_amended.2 ⟨28800, 79200⟩ ⟨400, 36000, TryWait.exited, SpawnResult.ok⟩
     ⟨none, false, false, false, []⟩ (by decide) (by decide)⟩

/-- C10: with `start == end` the code takes the same-day branch with an
empty interval, so the window is never open: no tick ever attempts a
spawn, a tick that finds the process not alive leaves no handle, and a
tick that finds it alive performs the scheduled stop. -/
theorem degenerate_window (cfg : Config) (env : TickEnv) (s : LoopState)
    (h : cfg.start_time = cfg.end_time) :
    in_window env.current_time cfg.start_time cfg.end_time = false ∧
    Event.spawnAttempt ∉ (tick cfg env s).2 ∧
    (is_alive env s = false → (tick cfg env s).1.server_process = none) ∧
    (is_alive env s = true →
      tick cfg env s =
        ({ s with server_process := none },
         [Event.notify stoppingMsg, Event.command stopCmd, Event.waitForExit,
          Event.sleep 10])) := by
  have hwin : in_window env.current_time cfg.start_time cfg.end_time = false := by
    unfold in_window
    rw [h]
    simp
  refine ⟨hwin, ?_, ?_, ?_⟩
  · rw [spawn_attempt_iff]
    simp [hwin]
  · intro halive
    rw [tick_notalive_closed cfg env s halive hwin]
  · intro halive
    exact tick_alive_closed cfg env s halive hwin

/-- Witness for C10 at a concrete degenerate configuration. -/
theorem degenerate_window_witness :
    in_window 36000 28800 28800 = false ∧
    Event.spawnAttempt ∉
      (tick ⟨28800, 28800⟩ ⟨400, 36000, TryWait.running, SpawnResult.ok⟩
        ⟨some (), false, false, false, []⟩).2 :=
  ⟨(degenerate_window ⟨28800, 28800⟩ ⟨400, 36000, TryWait.running, SpawnResult.ok⟩
      ⟨some (), false, false, false, []⟩ rfl).1,
   (degenerate_window ⟨28800, 28800⟩ ⟨400, 36000, TryWait.running, SpawnResult.ok⟩
      ⟨some (), false, false, false, []⟩ rfl).2.1⟩

/-- C2: on a tick that is not alive, with the window open and the pruned
crash-ledger count at least 3, the tick performs no spawn attempt, emits
exactly the single cooldown notification, and its only other event is
the 60-second sleep before re-evaluation (the `continue` skips the
10-second tick sleep); moreover no tick whatsoever attempts a spawn
while its pruned count is at least 3. -/
theorem cooldown_no_spawn (cfg : Config) (env : TickEnv) (s : LoopState)
    (halive : is_alive env s = false)
    (hwin : in_window env.current_time cfg.start_time cfg.end_time = true)
    (hcnt : 3 ≤ (prune env.now s.crash_timestamps).length) :
    tick cfg env s =
      ({ s with crash_timestamps := prune env.now s.crash_timestamps },
       [Event.notify cooldownMsg, Event.sleep 60]) ∧
    (∀ (cfg2 : Config) (env2 : TickEnv) (s2 : LoopState),
      3 ≤ (prune env2.now s2.crash_timestamps).length →
      Event.spawnAttempt ∉ (tick cfg2 env2 s2).2) := by
  constructor
  · exact tick_cooldown cfg env s halive hwin hcnt
  · intro cfg2 env2 s2 h2 hmem
    rw [spawn_attempt_iff] at hmem
    omega

/-- Witness for C2: three crashes recorded within the last 5 minutes,
window 08:00-22:00 open at 08:20, process not running. -/
theorem cooldown_no_spawn_witness :
    tick ⟨28800, 79200⟩ ⟨400, 30000, TryWait.exited, SpawnResult.ok⟩
        ⟨none, false, false, false, [100, 200, 300]⟩ =
      ({ server_process := none, warned_10_min := false, warned_5_min := false,
         warned_1_min := false, crash_timestamps := [100, 200, 300] },
       [Event.notify cooldownMsg, Event.sleep 60]) :=
  (cooldown_no_spawn ⟨28800, 79200⟩ ⟨400, 30000, TryWait.exited, SpawnResult.ok⟩
    ⟨none, false, false, false, [100, 200, 300]⟩
    (by decide) (by decide) (by decide)).1

/-- The three countdown announcements are pairwise distinct strings. -/
theorem warn_msgs_distinct :
    warn10Msg ≠ warn5Msg ∧ warn10Msg ≠ warn1Msg ∧ warn5Msg ≠ warn1Msg := by
  refine ⟨?_, ?_, ?_⟩ <;> decide

/-- Event list of `warn_step` when the handle is present, in ite form. -/
theorem warn_step_events (m : Int) (s : LoopState)
    (hsp : s.server_process = some ()) :
    (warn_step m s).2 =
      if m = 10 ∧ s.warned_10_min = false then [Event.command warn10Msg, Event.sleep 10]
      else if m = 5 ∧ s.warned_5_min = false then [Event.command warn5Msg, Event.sleep 10]
      else if m = 1 ∧ s.warned_1_min = false then [Event.command warn1Msg, Event.sleep 10]
      else [Event.sleep 10] := by
  unfold warn_step
  rw [hsp]
  by_cases h10 : m = 10 ∧ s.warned_10_min = false <;>
    by_cases h5 : m = 5 ∧ s.warned_5_min = false <;>
    by_cases h1 : m = 1 ∧ s.warned_1_min = false <;>
    simp [h10, h5, h1]

/-- Successor state of `warn_step` when the handle is present, in ite
form. -/
theorem warn_step_state (m : Int) (s : LoopState)
    (hsp : s.server_process = some ()) :
    (warn_step m s).1 =
      if m = 10 ∧ s.warned_10_min = false then { s with warned_10_min := true }
      else if m = 5 ∧ s.warned_5_min = false then { s with warned_5_min := true }
      else if m = 1 ∧ s.warned_1_min = false then { s with warned_1_min := true }
      else s := by
  unfold warn_step
  rw [hsp]
  by_cases h10 : m = 10 ∧ s.warned_10_min = false <;>
    by_cases h5 : m = 5 ∧ s.warned_5_min = false <;>
    by_cases h1 : m = 1 ∧ s.warned_1_min = false <;>
    simp [h10, h5, h1]

/-- C4: on a live tick with the window open, at most one countdown
command is sent; each threshold fires exactly when `minutes_left`
equals its value (10, 5 or 1) and its flag is unset; a firing threshold
sets its flag and a threshold whose value is not matched leaves its
flag unchanged. -/
theorem warn_thresholds (cfg : Config) (env : TickEnv) (s : LoopState)
    (halive : is_alive env s = true)
    (hwin : in_window env.current_time cfg.start_time cfg.end_time = true) :
    ((tick cfg env s).2.filter isCommand).length ≤ 1 ∧
    (Event.command warn10Msg ∈ (tick cfg env s).2 ↔
      (minutes_left cfg.start_time cfg.end_time env.current_time = 10 ∧
       s.warned_10_min = false)) ∧
    (Event.command warn5Msg ∈ (tick cfg env s).2 ↔
      (minutes_left cfg.start_time cfg.end_time env.current_time = 5 ∧
       s.warned_5_min = false)) ∧
    (Event.command warn1Msg ∈ (tick cfg env s).2 ↔
      (minutes_left cfg.start_time cfg.end_time env.current_time = 1 ∧
       s.warned_1_min = false)) ∧
    (minutes_left cfg.start_time cfg.end_time env.current_time = 10 →
      (tick cfg env s).1.warned_10_min = true) ∧
    (minutes_left cfg.start_time cfg.end_time env.current_time ≠ 10 →
      (tick cfg env s).1.warned_10_min = s.warned_10_min) ∧
    (minutes_left cfg.start_time cfg.end_time env.current_time = 5 →
      (tick cfg env s).1.warned_5_min = true) ∧
    (minutes_left cfg.start_time cfg.end_time env.current_time ≠ 5 →
      (tick cfg env s).1.warned_5_min = s.warned_5_min) ∧
    (minutes_left cfg.start_time cfg.end_time env.current_time = 1 →
      (tick cfg env s).1.warned_1_min = true) ∧
    (minutes_left cfg.start_time cfg.end_time env.current_time ≠ 1 →
      (tick cfg env s).1.warned_1_min = s.warned_1_min) := by
  obtain ⟨hsp, -⟩ := (is_alive_iff env s).mp halive
  rw [tick_alive_open cfg env s halive hwin]
  generalize minutes_left cfg.start_time cfg.end_time env.current_time = m
  rw [warn_step_events m s hsp, warn_step_state m s hsp]
  obtain ⟨d105, d101, d51⟩ := warn_msgs_distinct
  refine ⟨?_, ?_, ?_, ?_, ?_, ?_, ?_, ?_, ?_, ?_⟩
  · by_cases h10 : m = 10 ∧ s.warned_10_min = false <;>
      by_cases h5 : m = 5 ∧ s.warned_5_min = false <;>
      by_cases h1 : m = 1 ∧ s.warned_1_min = false <;>
      simp [h10, h5, h1, isCommand]
  · by_cases h10 : m = 10 ∧ s.warned_10_min = false <;>
      by_cases h5 : m = 5 ∧ s.warned_5_min = false <;>
      by_cases h1 : m = 1 ∧ s.warned_1_min = false <;>
      simp [h10, h5, h1, d105, d101]
  · by_cases h10 : m = 10 ∧ s.warned_10_min = false <;>
      by_cases h5 : m = 5 ∧ s.warned_5_min = false <;>
      by_cases h1 : m = 1 ∧ s.warned_1_min = false <;>
      simp [h10, h5, h1, Ne.symm d105, d51]
  · by_cases h10 : m = 10 ∧ s.warned_10_min = false <;>
      by_cases h5 : m = 5 ∧ s.warned_5_min = false <;>
      by_cases h1 : m = 1 ∧ s.warned_1_min = false <;>
      simp [h10, h5, h1, Ne.symm d101, Ne.symm d51]
  · intro hm
    subst hm
    by_cases hw : s.warned_10_min = false
    · simp [hw]
    · simp at hw
      simp [hw]
  · intro hm
    by_cases h5 : m = 5 ∧ s.warned_5_min = false <;>
      by_cases h1 : m = 1 ∧ s.warned_1_min = false <;>
      simp [hm, h5, h1]
  · intro hm
    subst hm
    by_cases hw : s.warned_5_min = false
    · simp [hw]
    · simp at hw
      simp [hw]
  · intro hm
    by_cases h10 : m = 10 ∧ s.warned_10_min = false <;>
      by_cases h1 : m = 1 ∧ s.warned_1_min = false <;>
      simp [hm, h10, h1]
  · intro hm
    subst hm
    by_cases hw : s.warned_1_min = false
    · simp [hw]
    · simp at hw
      simp [hw]
  · intro hm
    by_cases h10 : m = 10 ∧ s.warned_10_min = false <;>
      by_cases h5 : m = 5 ∧ s.warned_5_min = false <;>
      simp [hm, h10, h5]

/-- Witness for C4: window 08:00-22:00, current time 21:50 (exactly ten
minutes left), process alive, no flag set yet. -/
theorem warn_thresholds_witness :
    Event.command warn10Msg ∈
      (tick ⟨28800, 79200⟩ ⟨400, 78600, TryWait.running, SpawnResult.ok⟩
        ⟨some (), false, false, false, []⟩).2 ↔
      (minutes_left 28800 79200 78600 = 10 ∧ false = false) :=
  (warn_thresholds ⟨28800, 79200⟩ ⟨400, 78600, TryWait.running, SpawnResult.ok⟩
    ⟨some (), false, false, false, []⟩ (by decide) (by decide)).2.1

/-- C6: a successful spawn resets all three warning flags to false, and
on any tick without a successful spawn a set flag stays set. -/
theorem warning_flags_reset (cfg : Config) (env : TickEnv) (s : LoopState) :
    (spawn_succeeds cfg env s = true →
      (tick cfg env s).1.warned_10_min = false ∧
      (tick cfg env s).1.warned_5_min = false ∧
      (tick cfg env s).1.warned_1_min = false) ∧
    (spawn_succeeds cfg env s = false →
      (s.warned_10_min = true → (tick cfg env s).1.warned_10_min = true) ∧
      (s.warned_5_min = true → (tick cfg env s).1.warned_5_min = true) ∧
      (s.warned_1_min = true → (tick cfg env s).1.warned_1_min = true)) := by
  constructor
  · intro hs
    unfold spawn_succeeds at hs
    simp only [Bool.and_eq_true, decide_eq_true_eq, beq_iff_eq] at hs
    obtain ⟨⟨⟨halive, hwin⟩, hcnt⟩, hspawn⟩ := hs
    rw [tick_spawn_ok cfg env s halive hwin hcnt hspawn]
    exact ⟨rfl, rfl, rfl⟩
  · intro hs
    by_cases halive : is_alive env s = false
    · by_cases hwin : in_window env.current_time cfg.start_time cfg.end_time = true
      · by_cases hcnt : (prune env.now s.crash_timestamps).length < 3
        · cases hspawn : env.spawn
          · exfalso
            unfold spawn_succeeds at hs
            simp [halive, hwin, hcnt, hspawn] at hs
          · rw [tick_spawn_err cfg env s halive hwin hcnt hspawn]
            exact ⟨fun h => h, fun h => h, fun h => h⟩
        · rw [tick_cooldown cfg env s halive hwin (by omega)]
          exact ⟨fun h => h, fun h => h, fun h => h⟩
      · rw [tick_notalive_closed cfg env s halive (by simpa using hwin)]
        exact ⟨fun h => h, fun h => h, fun h => h⟩
    · have ha : is_alive env s = true := by
        cases h : is_alive env s
        · exact absurd h halive
        · rfl
      by_cases hwin : in_window env.current_time cfg.start_time cfg.end_time = true
      · rw [tick_alive_open cfg env s ha hwin]
        exact warn_step_flags_mono _ s
      · rw [tick_alive_closed cfg env s ha (by simpa using hwin)]
        exact ⟨fun h => h, fun h => h, fun h => h⟩

/-- Witness for C6: a concrete successful spawn clears the previously
set 10-minute flag. -/
theorem warning_flags_reset_witness :
    (tick ⟨28800, 79200⟩ ⟨400, 36000, TryWait.exited, SpawnResult.ok⟩
      ⟨none, true, true, true, []⟩).1.warned_10_min = false :=
  ((warning_flags_reset ⟨28800, 79200⟩ ⟨400, 36000, TryWait.exited, SpawnResult.ok⟩
    ⟨none, true, true, true, []⟩).1 (by decide)).1

/-- C7 counterexample: the liveness check does not clear an exited
handle.  On a tick with a present handle, `try_wait` reporting exited,
the window open and a crash-looping ledger (three fresh timestamps),
the tick reads as not alive, yet the stale handle survives the tick. -/
theorem liveness_counterexample :
    is_alive ⟨400, 30000, TryWait.exited, SpawnResult.ok⟩
        ⟨some (), false, false, false, [100, 200, 300]⟩ = false ∧
    (tick ⟨28800, 79200⟩ ⟨400, 30000, TryWait.exited, SpawnResult.ok⟩
        ⟨some (), false, false, false, [100, 200, 300]⟩).1.server_process =
      some () := by
  decide

/-- C7 (amended): the liveness check yields not-alive when there is no
handle, not-alive when the handle is present and `try_wait` reports
exited (or errors), and alive when it reports still running — but it
does not itself clear an exited handle.  The handle is dropped later in
the same tick only when the window is closed, or replaced by a
successful spawn; on a cooldown tick or a failed-spawn tick the stale
handle is retained. -/
theorem liveness_amended (cfg : Config) (env : TickEnv) (s : LoopState) :
    (s.server_process = none → is_alive env s = false) ∧
    (s.server_process = some () → env.try_wait = TryWait.exited →
      is_alive env s = false) ∧
    (s.server_process = some () → env.try_wait = TryWait.running →
      is_alive env s = true) ∧
    (is_alive env s = false →
      in_window env.current_time cfg.start_time cfg.end_time = false →
      (tick cfg env s).1.server_process = none) ∧
    (is_alive env s = false →
      in_window env.current_time cfg.start_time cfg.end_time = true →
      3 ≤ (prune env.now s.crash_timestamps).length →
      (tick cfg env s).1.server_process = s.server_process) ∧
    (is_alive env s = false →
      in_window env.current_time cfg.start_time cfg.end_time = true →
      (prune env.now s.crash_timestamps).length < 3 →
      env.spawn = SpawnResult.err →
      (tick cfg env s).1.server_process = s.server_process) ∧
    (is_alive env s = false →
      in_window env.current_time cfg.start_time cfg.end_time = true →
      (prune env.now s.crash_timestamps).length < 3 →
      env.spawn = SpawnResult.ok →
      (tick cfg env s).1.server_process = some ()) := by
  refine ⟨?_, ?_, ?_, ?_, ?_, ?_, ?_⟩
  · intro hsp
    unfold is_alive
    rw [hsp]
  · intro hsp htw
    unfold is_alive
    rw [hsp, htw]
  · intro hsp htw
    unfold is_alive
    rw [hsp, htw]
  · intro halive hwin
    rw [tick_notalive_closed cfg env s halive hwin]
  · intro halive hwin hcnt
    rw [tick_cooldown cfg env s halive hwin hcnt]
  · intro halive hwin hcnt hspawn
    rw [tick_spawn_err cfg env s halive hwin hcnt hspawn]
  · intro halive hwin hcnt hspawn
    rw [tick_spawn_ok cfg env s halive hwin hcnt hspawn]

/-- Witness for C7 (amended): a concrete cooldown tick retains the
stale exited handle. -/
theorem liveness_amended_witness :
    (tick ⟨28800, 79200⟩ ⟨400, 30000, TryWait.exited, SpawnResult.err⟩
      ⟨some (), false, false, false, [100, 200, 300]⟩).1.server_process =
      (LoopState.mk (some ()) false false false [100, 200, 300]).server_process :=
  (liveness_amended ⟨28800, 79200⟩ ⟨400, 30000, TryWait.exited, SpawnResult.err⟩
    ⟨some (), false, false, false, [100, 200, 300]⟩).2.2.2.2.1
    (by decide) (by decide) (by decide)

/-- C8: on a live tick with the window closed, the tick performs, in
program order: the stopping-by-schedule notification, the graceful
`stop` command on the child's stdin, the blocking `wait` for exit
(modelled by the `waitForExit` event; `child.wait()` has no timeout),
and the handle is cleared in the successor state. -/
theorem stop_sequence (cfg : Config) (env : TickEnv) (s : LoopState)
    (halive : is_alive env s = true)
    (hwin : in_window env.current_time cfg.start_time cfg.end_time = false) :
    tick cfg env s =
      ({ s with server_process := none },
       [Event.notify stoppingMsg, Event.command stopCmd, Event.waitForExit,
        Event.sleep 10]) :=
  tick_alive_closed cfg env s halive hwin

/-- Witness for C8: window 08:00-22:00, current time 22:30, process
still running. -/
theorem stop_sequence_witness :
    tick ⟨28800, 79200⟩ ⟨400, 81000, TryWait.running, SpawnResult.ok⟩
        ⟨some (), true, false, false, [7]⟩ =
      ({ server_process := none, warned_10_min := true, warned_5_min := false,
         warned_1_min := false, crash_timestamps := [7] },
       [Event.notify stoppingMsg, Event.command stopCmd, Event.waitForExit,
        Event.sleep 10]) :=
  stop_sequence ⟨28800, 79200⟩ ⟨400, 81000, TryWait.running, SpawnResult.ok⟩
    ⟨some (), true, false, false, [7]⟩ (by decide) (by decide)

/-- C9: a failed spawn attempt records the tick's timestamp in the
crash ledger exactly as a successful spawn would (the resulting ledgers
are equal), the process remains absent, the tick completes normally
(the loop continues), and on any later not-alive in-window tick a spawn
is attempted iff that tick's pruned count is below 3. -/
theorem spawn_failure_recorded (cfg : Config) (env : TickEnv) (s : LoopState)
    (halive : is_alive env s = false)
    (hwin : in_window env.current_time cfg.start_time cfg.end_time = true)
    (hcnt : (prune env.now s.crash_timestamps).length < 3)
    (hspawn : env.spawn = SpawnResult.err) :
    (tick cfg env s).1.crash_timestamps =
      prune env.now s.crash_timestamps ++ [env.now] ∧
    (tick cfg env s).1.crash_timestamps =
      (tick cfg { env with spawn := SpawnResult.ok } s).1.crash_timestamps ∧
    (s.server_process = none → (tick cfg env s).1.server_process = none) ∧
    Event.spawnAttempt ∈ (tick cfg env s).2 ∧
    (∀ (env2 : TickEnv) (s2 : LoopState),
      is_alive env2 s2 = false →
      in_window env2.current_time cfg.start_time cfg.end_time = true →
      (Event.spawnAttempt ∈ (tick cfg env2 s2).2 ↔
        (prune env2.now s2.crash_timestamps).length < 3)) := by
  have halive2 : is_alive { env with spawn := SpawnResult.ok } s = false := halive
  have hwin2 :
      in_window env.current_time cfg.start_time cfg.end_time = true := hwin
  rw [tick_spawn_err cfg env s halive hwin hcnt hspawn,
    tick_spawn_ok cfg { env with spawn := SpawnResult.ok } s halive2 hwin2 hcnt rfl]
  refine ⟨rfl, rfl, fun h => h, by simp, ?_⟩
  intro env2 s2 ha2 hw2
  rw [spawn_attempt_iff]
  simp [ha2, hw2]

/-- Witness for C9: a concrete failed spawn at `now = 400` appends 400
to the (empty after pruning) ledger. -/
theorem spawn_failure_recorded_witness :
    (tick ⟨28800, 79200⟩ ⟨400, 36000, TryWait.exited, SpawnResult.err⟩
      ⟨none, false, false, false, []⟩).1.crash_timestamps =
      prune 400 ([] : List Int) ++ [400] :=
  (spawn_failure_recorded ⟨28800, 79200⟩ ⟨400, 36000, TryWait.exited, SpawnResult.err⟩
    ⟨none, false, false, false, []⟩ (by decide) (by decide) (by decide) rfl).1

end RustyGolem
